import Mathlib

/-!
Shallow embedding of the session-transport core of `webrtc-unreliable-client`:
the DTLS transport negotiator (`src/client/src/webrtc/dtls_transport/mod.rs`)
and the RTP stream receiver
(`src/slim/src/webrtc/rtp_transceiver/rtp_receiver/mod.rs`).

External collaborators (ICE transport, DTLS handshake, interceptor chain,
stream binding) are modelled as opaque values or environment functions whose
outcomes are parameters of the embedded operations.  Asynchronous effects are
made explicit: the outcome of each `tokio::select!` race is an input of the
embedded function, and mutation is explicit state passing.
-/

namespace Webrtc

/-- Error type of the `webrtc::error` module, restricted to the variants that
the embedded code can produce.  `Other` models `dtls::Error::Other` after its
`Into<Error>` conversion; `FlattenErrs` models the combined error built by
`flatten_errs`. -/
inductive Error where
  | ErrICEConnectionNotStarted
  | ErrInvalidDTLSStart
  | ErrNonCertificate
  | ErrClosedPipe
  | ErrInterceptorNotBind
  | ErrExistingTrack
  | ErrRTPReceiverForRIDTrackStreamNotFound
  | ErrRTPReceiverReceiveAlreadyCalled
  | Other (reason : String)
  | FlattenErrs (errs : List Error)

/-- Modelled from the spec: `flatten_errs` (repository code outside `src/`)
"collects and aggregates every individual close error into one combined
failure": the empty list is success, a non-empty list becomes one combined
error carrying every failure. -/
def flatten_errs (errs : List Error) : Except Error Unit :=
  match errs with
  | [] => .ok ()
  | _ => .error (.FlattenErrs errs)

/-- DTLS transport state machine values (`dtls_transport_state`). -/
inductive RTCDtlsTransportState where
  | New
  | Connecting
  | Connected
  | Closed
  | Failed
deriving DecidableEq, Repr

/-- ICE transport state (external collaborator; only `New` vs. not-`New`
matters to `ensure_ice_conn`). -/
inductive RTCIceTransportState where
  | New
  | Checking
  | Connected
  | Completed
  | Disconnected
  | Failed
  | Closed
deriving DecidableEq, Repr

/-- DTLS role (`dtls_role`); `get_local_parameters` always reports `Auto`,
`prepare_transport` always selects `Client`. -/
inductive DTLSRole where
  | Unspecified
  | Auto
  | Client
  | Server
deriving DecidableEq, Repr

/-- Fingerprint entry derived from a certificate (opaque value object). -/
structure RTCDtlsFingerprint where
  algorithm : String
  value : String
deriving DecidableEq, Repr

/-- `DTLSParameters`: role plus fingerprint list. -/
structure DTLSParameters where
  role : DTLSRole
  fingerprints : List RTCDtlsFingerprint
deriving DecidableEq, Repr

/-- Local identity (`RTCCertificate`).  `certificate` is the opaque dtls
certificate handed to the handshake config; `get_fingerprints` is the outcome
of the collaborator call `c.get_fingerprints()`. -/
structure RTCCertificate where
  certificate : Nat
  get_fingerprints : Except Error (List RTCDtlsFingerprint)

/-- Client auth mode of the dtls `Config` (collaborator value object). -/
inductive ClientAuthType where
  | NoClientCert
  | RequireAnyClientCert
deriving DecidableEq, Repr

/-- The dtls `Config` assembled by `prepare_transport`. -/
structure DtlsConfig where
  certificates : List Nat
  srtp_protection_profiles : List Nat
  client_auth : ClientAuthType
  insecure_skip_verify : Bool
deriving DecidableEq, Repr

/-- Established secure channel (`DTLSConn`), opaque. -/
structure DTLSConn where
  id : Nat
deriving DecidableEq, Repr

/-- State of an `RTCDtlsTransport` value.  The `ice_transport` collaborator is
represented by its state (the only part `ensure_ice_conn` consults); the
single-slot state-change handler is an opaque identifier. -/
structure RTCDtlsTransport where
  ice_transport_state : RTCIceTransportState
  certificates : List RTCCertificate
  remote_parameters : DTLSParameters
  remote_certificate : List Nat
  state : RTCDtlsTransportState
  on_state_change_handler : Option Nat
  conn : Option DTLSConn

/-- `RTCDtlsTransport::new`: state starts at `New`, everything else default. -/
def RTCDtlsTransport.new (iceState : RTCIceTransportState)
    (certificates : List RTCCertificate) : RTCDtlsTransport :=
  { ice_transport_state := iceState
    certificates := certificates
    remote_parameters := { role := .Unspecified, fingerprints := [] }
    remote_certificate := []
    state := .New
    on_state_change_handler := none
    conn := none }

/-- `state_change`: stores the new state and fires the registered handler (the
handler invocation is an external effect with no bearing on the fields). -/
def RTCDtlsTransport.state_change (t : RTCDtlsTransport)
    (s : RTCDtlsTransportState) : RTCDtlsTransport :=
  { t with state := s }

/-- `ensure_ice_conn`: the ICE transport must have left its `New` state. -/
def RTCDtlsTransport.ensure_ice_conn (t : RTCDtlsTransport) : Except Error Unit :=
  if t.ice_transport_state = .New then
    .error .ErrICEConnectionNotStarted
  else
    .ok ()

/-- `collect_fingerprints` embeds the loop of `get_local_parameters`:
`for c in &self.certificates { fingerprints.extend(c.get_fingerprints()?); }`.
The `?` short-circuits on the first failing identity. -/
def collect_fingerprints : List RTCCertificate → Except Error (List RTCDtlsFingerprint)
  | [] => .ok []
  | c :: rest =>
    match c.get_fingerprints with
    | .error e => .error e
    | .ok fps =>
      match collect_fingerprints rest with
      | .error e => .error e
      | .ok fpsRest => .ok (fps ++ fpsRest)

/-- `get_local_parameters`: derives fingerprints from every owned identity and
always reports role `Auto`. -/
def RTCDtlsTransport.get_local_parameters (t : RTCDtlsTransport) :
    Except Error DTLSParameters :=
  match collect_fingerprints t.certificates with
  | .error e => .error e
  | .ok fingerprints => .ok { role := .Auto, fingerprints := fingerprints }

/-- `prepare_transport`: checks the ICE layer left `New`, checks own state is
`New`, stores the remote parameters, picks the first identity, transitions to
`Connecting`, and returns the handshake role and config.  State passing makes
the partial mutations visible on the error paths exactly as in the source. -/
def RTCDtlsTransport.prepare_transport (t : RTCDtlsTransport)
    (remote_parameters : DTLSParameters) :
    RTCDtlsTransport × Except Error (DTLSRole × DtlsConfig) :=
  match t.ensure_ice_conn with
  | .error e => (t, .error e)
  | .ok () =>
    if t.state ≠ RTCDtlsTransportState.New then
      (t, .error .ErrInvalidDTLSStart)
    else
      let t := { t with remote_parameters := remote_parameters }
      match t.certificates.head? with
      | none => (t, .error .ErrNonCertificate)
      | some cert =>
        let t := t.state_change .Connecting
        (t, .ok (DTLSRole.Client,
          { certificates := [cert.certificate]
            srtp_protection_profiles := []
            client_auth := .RequireAnyClientCert
            insecure_skip_verify := true }))

/-- Environment of one `start` call: the result of
`ice_transport.new_endpoint(match_dtls)` (an opaque endpoint id, or `none`)
and the outcome of `DTLSConn::new(endpoint, config, true, None)` as a function
of the endpoint and config passed to it. -/
structure StartEnv where
  new_endpoint : Option Nat
  dtls_conn_new : Nat → DtlsConfig → Except Error DTLSConn

/-- `start`: requests the demultiplexed endpoint, runs `prepare_transport`,
drives the handshake; on handshake (or endpoint) failure transitions to
`Failed`; on success stores the secure channel and transitions to `Connected`.
A `prepare_transport` error propagates via `?` without a `Failed` transition. -/
def RTCDtlsTransport.start (t : RTCDtlsTransport)
    (remote_parameters : DTLSParameters) (env : StartEnv) :
    RTCDtlsTransport × Except Error Unit :=
  match env.new_endpoint with
  | some dtls_endpoint =>
    match t.prepare_transport remote_parameters with
    | (t, .error e) => (t, .error e)
    | (t, .ok (_, dtls_config)) =>
      match env.dtls_conn_new dtls_endpoint dtls_config with
      | .error err => (t.state_change .Failed, .error err)
      | .ok dtls_conn =>
        let t := { t with conn := some dtls_conn }
        (t.state_change .Connected, .ok ())
  | none =>
    (t.state_change .Failed,
     .error (.Other "ice_transport.new_endpoint failed"))

/-- `on_state_change`: replaces the single-slot handler. -/
def RTCDtlsTransport.on_state_change (t : RTCDtlsTransport) (f : Nat) :
    RTCDtlsTransport :=
  { t with on_state_change_handler := some f }

/-- Operations that can run against a transport after construction (the only
state-mutating entry points of the component). -/
inductive TransportOp where
  | start (remote_parameters : DTLSParameters) (env : StartEnv)
  | on_state_change (f : Nat)

/-- Apply one operation, returning the new transport state and the call's
result (`on_state_change` always succeeds). -/
def applyOp (t : RTCDtlsTransport) : TransportOp → RTCDtlsTransport × Except Error Unit
  | .start rp env => t.start rp env
  | .on_state_change f => (t.on_state_change f, .ok ())

/-- Run a sequence of operations, keeping only the final state. -/
def runOps : RTCDtlsTransport → List TransportOp → RTCDtlsTransport
  | t, [] => t
  | t, op :: ops => runOps (applyOp t op).1 ops

/-- All intermediate states of a run, the initial state included. -/
def run_trace : RTCDtlsTransport → List TransportOp → List RTCDtlsTransport
  | t, [] => [t]
  | t, op :: ops => t :: run_trace (applyOp t op).1 ops

/-! ## Stream receiver (`rtp_receiver/mod.rs`) -/

/-- Synchronization source identifier (`SSRC = u32`). -/
abbrev SSRC := Nat

/-- Media kind of a receiver (`RTPCodecType`). -/
inductive RTPCodecType where
  | Unspecified
  | Audio
  | Video
deriving DecidableEq, Repr

/-- Attribute map passed through interceptor reads; `Attributes::new()` is the
empty map.  Entries are opaque key/value pairs. -/
structure Attributes where
  entries : List (Nat × Nat)
deriving DecidableEq, Repr

/-- Descriptor produced by `create_stream_info(id, ssrc, 0, codec, &[])`
(repository code outside `src/`; the receiver treats it as an opaque value, so
only the arguments that vary are modelled). -/
structure StreamInfo where
  id : String
  ssrc : SSRC
deriving DecidableEq, Repr

/-- Bound read stream (RTP or RTCP pipeline end); `close` is the collaborator
call whose outcome is `closeResult`. -/
structure ReadStream where
  sid : Nat
  closeResult : Except Error Unit

/-- Opaque RTP interceptor capability attached to a bound stream. -/
structure RTPInterceptor where
  iid : Nat

/-- Opaque RTCP interceptor capability; `read` is the outcome the capability
yields once it resolves (`rtcp_interceptor.read(b, &a)`). -/
structure RTCPInterceptor where
  read : Except Error (Nat × Attributes)

/-- Remote track handle (`TrackRemote::new(receive_mtu, kind, ssrc, rid,
receiver)`); the weak back-reference to the receiver carries no state. -/
structure TrackRemote where
  receive_mtu : Nat
  kind : RTPCodecType
  ssrc : SSRC
  rid : String

/-- One pipeline of a track (`TrackStream`): all fields absent until binding
succeeds for that SSRC. -/
structure TrackStream where
  stream_info : Option StreamInfo
  rtp_read_stream : Option ReadStream
  rtp_interceptor : Option RTPInterceptor
  rtcp_read_stream : Option ReadStream
  rtcp_interceptor : Option RTCPInterceptor

/-- The all-absent pipeline used for a deferred binding. -/
def TrackStream.empty : TrackStream :=
  { stream_info := none
    rtp_read_stream := none
    rtp_interceptor := none
    rtcp_read_stream := none
    rtcp_interceptor := none }

/-- One logical inbound track with its primary and repair pipelines. -/
structure TrackStreams where
  track : TrackRemote
  stream : TrackStream
  repair_stream : TrackStream

/-- Shared internal state of the receiver; the `closed_rx`/`received_rx`
signalling primitives are modelled as explicit race outcomes passed to `read`
and `read_simulcast`, so only the track collection remains as data. -/
structure RTPReceiverInternal where
  tracks : List TrackStreams

/-- Per-encoding receive parameters `{ssrc, rid, rtx: {ssrc}}`. -/
structure RTCRtpRtxParameters where
  ssrc : SSRC
deriving DecidableEq, Repr

/-- One decoding parameter entry of `RTCRtpReceiveParameters`. -/
structure RTCRtpDecodingParameters where
  rid : String
  ssrc : SSRC
  rtx : RTCRtpRtxParameters
deriving DecidableEq, Repr

/-- The `Default::default()` value of a decoding parameter entry. -/
def RTCRtpDecodingParameters.default : RTCRtpDecodingParameters :=
  { rid := "", ssrc := 0, rtx := { ssrc := 0 } }

/-- Receive parameters: an ordered sequence of per-encoding descriptors. -/
structure RTCRtpReceiveParameters where
  encodings : List RTCRtpDecodingParameters
deriving DecidableEq, Repr

/-- Receiver facade state.  `received_tx = some ()` means the one-shot gate is
still armed (`receive` not yet called); `take()` consumes it to `none`. -/
structure RTCRtpReceiver where
  receive_mtu : Nat
  kind : RTPCodecType
  received_tx : Option Unit
  internal : RTPReceiverInternal

/-- `RTCRtpReceiver::new`: armed gate, empty track collection. -/
def RTCRtpReceiver.new (receive_mtu : Nat) (kind : RTPCodecType) : RTCRtpReceiver :=
  { receive_mtu := receive_mtu
    kind := kind
    received_tx := some ()
    internal := { tracks := [] } }

/-- Which arm of the first `tokio::select!` race (readiness gate versus
closed-notification) resolved. -/
inductive GateEvent where
  | received
  | closed
deriving DecidableEq, Repr

/-- `RTPReceiverInternal::read`: waits on the readiness gate racing the closed
signal, then reads RTCP from the first track's interceptor, racing the closed
signal again (`race_closed` tells which arm of that second race resolved). -/
def RTPReceiverInternal.read (internal : RTPReceiverInternal)
    (gate : GateEvent) (race_closed : Bool) : Except Error (Nat × Attributes) :=
  match gate with
  | .closed => .error .ErrClosedPipe
  | .received =>
    match internal.tracks.head? with
    | none => .error .ErrExistingTrack
    | some t =>
      match t.stream.rtcp_interceptor with
      | none => .error .ErrInterceptorNotBind
      | some rtcp_interceptor =>
        if race_closed then
          .error .ErrClosedPipe
        else
          match rtcp_interceptor.read with
          | .ok result => .ok result
          | .error e => .error e

/-- Loop body of `read_simulcast`: scan for the first track whose RID matches,
then read from its RTCP interceptor (racing the closed signal). -/
def read_simulcast_scan (rid : String) (race_closed : Bool) :
    List TrackStreams → Except Error (Nat × Attributes)
  | [] => .error .ErrRTPReceiverForRIDTrackStreamNotFound
  | t :: rest =>
    if t.track.rid = rid then
      match t.stream.rtcp_interceptor with
      | none => .error .ErrInterceptorNotBind
      | some rtcp_interceptor =>
        if race_closed then
          .error .ErrClosedPipe
        else
          match rtcp_interceptor.read with
          | .ok result => .ok result
          | .error e => .error e
    else
      read_simulcast_scan rid race_closed rest

/-- `RTPReceiverInternal::read_simulcast`: readiness gate race, then the RID
scan. -/
def RTPReceiverInternal.read_simulcast (internal : RTPReceiverInternal)
    (rid : String) (gate : GateEvent) (race_closed : Bool) :
    Except Error (Nat × Attributes) :=
  match gate with
  | .closed => .error .ErrClosedPipe
  | .received => read_simulcast_scan rid race_closed internal.tracks

/-- Result of `transport.streams_for_ssrc(ssrc, &stream_info, &interceptor)`
(transport-layer collaborator): any of the four pipeline ends may be absent. -/
structure BindResult where
  rtp_read_stream : Option ReadStream
  rtp_interceptor : Option RTPInterceptor
  rtcp_read_stream : Option ReadStream
  rtcp_interceptor : Option RTCPInterceptor

/-- Loop of `receive_for_rtx`: attach the repair stream to the first track `t`
with `(ssrc != 0 && l == 1) || t.track.rid() == rsid`; `none` when no track
matches (`l` is the length of the whole collection, fixed before the loop). -/
def receive_for_rtx_attach (l : Nat) (ssrc : SSRC) (rsid : String)
    (repair_stream : TrackStream) :
    List TrackStreams → Option (List TrackStreams)
  | [] => none
  | t :: rest =>
    if (ssrc ≠ 0 ∧ l = 1) ∨ t.track.rid = rsid then
      some ({ t with repair_stream := repair_stream } :: rest)
    else
      match receive_for_rtx_attach l ssrc rsid repair_stream rest with
      | some rest2 => some (t :: rest2)
      | none => none

/-- `receive_for_rtx`: scans the track collection under the write lock and
replaces the matching track's repair pipeline; on success it also spawns the
unsupervised drain task (an external effect that touches no receiver state);
otherwise fails `ErrRTPReceiverForRIDTrackStreamNotFound`. -/
def RTCRtpReceiver.receive_for_rtx (r : RTCRtpReceiver) (ssrc : SSRC)
    (rsid : String) (repair_stream : TrackStream) :
    RTCRtpReceiver × Except Error Unit :=
  let l := r.internal.tracks.length
  match receive_for_rtx_attach l ssrc rsid repair_stream r.internal.tracks with
  | some tracks2 => ({ r with internal := { tracks := tracks2 } }, .ok ())
  | none => (r, .error .ErrRTPReceiverForRIDTrackStreamNotFound)

/-- Body of the `receive` loop for one encoding: bind the primary SSRC when
nonzero (deferred binding otherwise), append the new `TrackStreams` entry,
then bind and attach the RTX repair stream when the encoding declares one. -/
def receive_encoding (r : RTCRtpReceiver)
    (streams_for_ssrc : SSRC → Except Error BindResult)
    (encoding : RTCRtpDecodingParameters) : RTCRtpReceiver × Except Error Unit :=
  let primary : Except Error TrackStream :=
    if encoding.ssrc ≠ 0 then
      match streams_for_ssrc encoding.ssrc with
      | .error e => .error e
      | .ok b =>
        .ok { stream_info := some { id := "", ssrc := encoding.ssrc }
              rtp_read_stream := b.rtp_read_stream
              rtp_interceptor := b.rtp_interceptor
              rtcp_read_stream := b.rtcp_read_stream
              rtcp_interceptor := b.rtcp_interceptor }
    else
      .ok TrackStream.empty
  match primary with
  | .error e => (r, .error e)
  | .ok stream =>
    let t : TrackStreams :=
      { track :=
          { receive_mtu := r.receive_mtu
            kind := r.kind
            ssrc := encoding.ssrc
            rid := encoding.rid }
        stream := stream
        repair_stream := TrackStream.empty }
    let r := { r with internal := { tracks := r.internal.tracks ++ [t] } }
    if encoding.rtx.ssrc ≠ 0 then
      match streams_for_ssrc encoding.rtx.ssrc with
      | .error e => (r, .error e)
      | .ok b =>
        r.receive_for_rtx encoding.rtx.ssrc ""
          { stream_info := some { id := "", ssrc := encoding.rtx.ssrc }
            rtp_read_stream := b.rtp_read_stream
            rtp_interceptor := b.rtp_interceptor
            rtcp_read_stream := b.rtcp_read_stream
            rtcp_interceptor := b.rtcp_interceptor }
    else
      (r, .ok ())

/-- The `for encoding in &parameters.encodings` loop of `receive`; a failing
iteration propagates via `?`, keeping the tracks appended so far. -/
def receive_encodings (r : RTCRtpReceiver)
    (streams_for_ssrc : SSRC → Except Error BindResult) :
    List RTCRtpDecodingParameters → RTCRtpReceiver × Except Error Unit
  | [] => (r, .ok ())
  | encoding :: rest =>
    match receive_encoding r streams_for_ssrc encoding with
    | (r2, .ok _) => receive_encodings r2 streams_for_ssrc rest
    | (r2, .error e) => (r2, .error e)

/-- `receive`: atomically consumes the one-shot gate before any other work
(fails `ErrRTPReceiverReceiveAlreadyCalled` when already consumed), then runs
the per-encoding binding loop. -/
def RTCRtpReceiver.receive (r : RTCRtpReceiver)
    (parameters : RTCRtpReceiveParameters)
    (streams_for_ssrc : SSRC → Except Error BindResult) :
    RTCRtpReceiver × Except Error Unit :=
  match r.received_tx with
  | none => (r, .error .ErrRTPReceiverReceiveAlreadyCalled)
  | some _ =>
    receive_encodings { r with received_tx := none } streams_for_ssrc
      parameters.encodings

/-- `have_received`: the gate has been consumed. -/
def RTCRtpReceiver.have_received (r : RTCRtpReceiver) : Bool :=
  r.received_tx.isNone

/-- Externally observable effects of `stop`: pipeline closes and interceptor
unbinds, in issue order. -/
inductive StopAction where
  | close_rtcp (s : ReadStream)
  | close_rtp (s : ReadStream)
  | close_repair_rtcp (s : ReadStream)
  | close_repair_rtp (s : ReadStream)
  | unbind (info : StreamInfo)

/-- Errors pushed by one `if let Some(s) = ... { if let Err(err) = s.close()
{ errs.push(err) } }` block of the `stop` loop. -/
def close_errs_of : Option ReadStream → List Error
  | some s =>
    match s.closeResult with
    | .error err => [err]
    | .ok _ => []
  | none => []

/-- Close effect issued by one such block (a close is attempted whenever the
pipeline end is bound, regardless of its outcome). -/
def close_action_of (mk : ReadStream → StopAction) :
    Option ReadStream → List StopAction
  | some s => [mk s]
  | none => []

/-- Unbind effect issued for a bound stream descriptor. -/
def unbind_action_of : Option StreamInfo → List StopAction
  | some info => [StopAction.unbind info]
  | none => []

/-- Per-track body of the `stop` loop: close the four pipeline ends that are
bound (collecting each failure) and unbind both bound stream descriptors, in
source order. -/
def stop_track (t : TrackStreams) : List Error × List StopAction :=
  (close_errs_of t.stream.rtcp_read_stream
     ++ close_errs_of t.stream.rtp_read_stream
     ++ close_errs_of t.repair_stream.rtcp_read_stream
     ++ close_errs_of t.repair_stream.rtp_read_stream,
   close_action_of .close_rtcp t.stream.rtcp_read_stream
     ++ close_action_of .close_rtp t.stream.rtp_read_stream
     ++ close_action_of .close_repair_rtcp t.repair_stream.rtcp_read_stream
     ++ close_action_of .close_repair_rtp t.repair_stream.rtp_read_stream
     ++ unbind_action_of t.stream.stream_info
     ++ unbind_action_of t.repair_stream.stream_info)

/-- The `for t in &*tracks` loop of `stop`, pushing into the single `errs`
accumulator and issuing the close/unbind effects in order. -/
def stop_tracks : List TrackStreams → List Error × List StopAction
  | [] => ([], [])
  | t :: rest =>
    ((stop_track t).1 ++ (stop_tracks rest).1,
     (stop_track t).2 ++ (stop_tracks rest).2)

/-- `stop`: broadcasts the cancellation signal unconditionally (an effect on
blocked readers, modelled by the `GateEvent`/`race_closed` inputs of the read
operations), then — only when the gate was consumed by `receive` — closes every
bound pipeline of every track and unbinds every bound descriptor, aggregating
all close errors with `flatten_errs`.  Returns the (unchanged) receiver, the
call result, and the list of issued effects. -/
def RTCRtpReceiver.stop (r : RTCRtpReceiver) :
    RTCRtpReceiver × Except Error Unit × List StopAction :=
  let received_tx_is_none := r.received_tx.isNone
  if received_tx_is_none then
    let (errs, actions) := stop_tracks r.internal.tracks
    (r, flatten_errs errs, actions)
  else
    (r, flatten_errs [], [])

/-- Session-level track metadata (`TrackDetails`, repository code outside
`src/`; the fields are those the `start` helper consumes: a list of SSRCs, a
list of RIDs, a repair SSRC — zero meaning absent — a track id and a stream
id). -/
structure TrackDetails where
  ssrcs : List SSRC
  rids : List String
  repair_ssrc : SSRC
  id : String
  stream_id : String

/-- Encoding-construction phase of `RTCRtpReceiver::start`: one encoding per
`max(len(ssrcs), len(rids))`, zipping the available SSRC/RID values
positionally (defaults elsewhere) and broadcasting the repair SSRC onto every
encoding's RTX slot. -/
def RTCRtpReceiver.start_encodings (incoming : TrackDetails) :
    List RTCRtpDecodingParameters :=
  let encoding_size :=
    if incoming.rids.length ≥ incoming.ssrcs.length then
      incoming.rids.length
    else
      incoming.ssrcs.length
  (List.range encoding_size).map (fun i =>
    { rid :=
        if incoming.rids.length > i then
          incoming.rids.getD i ""
        else
          RTCRtpDecodingParameters.default.rid
      ssrc :=
        if incoming.ssrcs.length > i then
          incoming.ssrcs.getD i 0
        else
          RTCRtpDecodingParameters.default.ssrc
      rtx := { ssrc := incoming.repair_ssrc } })

/-! ## Theorems -/

theorem collect_fingerprints_ok (certs : List RTCCertificate)
    (fpss : List (List RTCDtlsFingerprint))
    (h : certs.map RTCCertificate.get_fingerprints = fpss.map Except.ok) :
    collect_fingerprints certs = .ok fpss.flatten := by
  induction certs generalizing fpss with
  | nil =>
    cases fpss with
    | nil => rfl
    | cons fps fpss => simp at h
  | cons c rest ih =>
    cases fpss with
    | nil => simp at h
    | cons fps fpss =>
      simp only [List.map_cons, List.cons.injEq] at h
      obtain ⟨hc, hrest⟩ := h
      simp [collect_fingerprints, hc, ih fpss hrest]

def localParamsEmptyTransport : RTCDtlsTransport :=
  RTCDtlsTransport.new .Checking []

/-- C4 counterexample: a negotiator with zero configured identities does not
fail `get_local_parameters` with a no-certificate error; it succeeds with an
empty fingerprint list. -/
theorem get_local_parameters_empty_ok :
    localParamsEmptyTransport.get_local_parameters
        = .ok { role := .Auto, fingerprints := [] }
    ∧ localParamsEmptyTransport.get_local_parameters
        ≠ .error .ErrNonCertificate := by
  refine ⟨rfl, ?_⟩
  intro h
  exact Except.noConfusion h

/-- C4 (amended): `get_local_parameters` never fails on zero identities — it
returns role `Auto` with an empty fingerprint list — and with N identities
whose fingerprint derivations succeed it returns the concatenation of their
fingerprint sets in identity order. -/
theorem get_local_parameters_spec (t : RTCDtlsTransport) :
    (t.certificates = [] →
      t.get_local_parameters = .ok { role := .Auto, fingerprints := [] })
    ∧ (∀ fpss : List (List RTCDtlsFingerprint),
        t.certificates.map RTCCertificate.get_fingerprints = fpss.map Except.ok →
        t.get_local_parameters = .ok { role := .Auto, fingerprints := fpss.flatten }) := by
  constructor
  · intro h
    simp [RTCDtlsTransport.get_local_parameters, h, collect_fingerprints]
  · intro fpss h
    simp [RTCDtlsTransport.get_local_parameters, collect_fingerprints_ok t.certificates fpss h]

def localParamsTwoCertTransport : RTCDtlsTransport :=
  RTCDtlsTransport.new .Checking
    [{ certificate := 1, get_fingerprints := .ok [{ algorithm := "sha-256", value := "aa" }] },
     { certificate := 2, get_fingerprints := .ok [{ algorithm := "sha-256", value := "bb" }] }]

/-- C4 witness: two identities yield the two fingerprints in identity order. -/
theorem get_local_parameters_spec_witness :
    localParamsTwoCertTransport.get_local_parameters
      = .ok { role := .Auto,
              fingerprints := [{ algorithm := "sha-256", value := "aa" },
                               { algorithm := "sha-256", value := "bb" }] } :=
  (get_local_parameters_spec localParamsTwoCertTransport).2
    [[{ algorithm := "sha-256", value := "aa" }],
     [{ algorithm := "sha-256", value := "bb" }]] rfl

/-- C7: the `start` helper builds exactly `max(len(ssrcs), len(rids))`
encodings, zips SSRC and RID values positionally with defaults at absent
positions, broadcasts the repair SSRC onto every encoding's RTX slot, and on
`ssrcs=[10,20]`, `rids=[]`, `repair_ssrc=99` yields exactly the encodings
`{ssrc:10, rtx.ssrc:99}` and `{ssrc:20, rtx.ssrc:99}`. -/
theorem start_encodings_spec (incoming : TrackDetails) :
    (RTCRtpReceiver.start_encodings incoming).length
        = max incoming.ssrcs.length incoming.rids.length
    ∧ (∀ i, i < max incoming.ssrcs.length incoming.rids.length →
        (RTCRtpReceiver.start_encodings incoming).getD i
            RTCRtpDecodingParameters.default
          = { rid := incoming.rids.getD i ""
              ssrc := incoming.ssrcs.getD i 0
              rtx := { ssrc := incoming.repair_ssrc } })
    ∧ (incoming.ssrcs = [10, 20] → incoming.rids = [] →
        incoming.repair_ssrc = 99 →
        RTCRtpReceiver.start_encodings incoming
          = [{ rid := "", ssrc := 10, rtx := { ssrc := 99 } },
             { rid := "", ssrc := 20, rtx := { ssrc := 99 } }]) := by
  have hsize :
      (if incoming.rids.length ≥ incoming.ssrcs.length then
        incoming.rids.length
      else
        incoming.ssrcs.length) = max incoming.ssrcs.length incoming.rids.length := by
    simp only [Nat.max_def, ge_iff_le]
  refine ⟨?_, ?_, ?_⟩
  · simp [RTCRtpReceiver.start_encodings, hsize]
  · intro i hi
    unfold RTCRtpReceiver.start_encodings
    rw [hsize]
    rw [List.getD_eq_getElem?_getD, List.getElem?_map, List.getElem?_range hi]
    rw [Option.map_some', Option.getD_some]
    have hrid :
        (if incoming.rids.length > i then incoming.rids.getD i "" else
          RTCRtpDecodingParameters.default.rid) = incoming.rids.getD i "" := by
      by_cases h : incoming.rids.length > i
      · simp [h]
      · rw [if_neg h, List.getD_eq_getElem?_getD,
          List.getElem?_eq_none (by omega)]
        rfl
    have hssrc :
        (if incoming.ssrcs.length > i then incoming.ssrcs.getD i 0 else
          RTCRtpDecodingParameters.default.ssrc) = incoming.ssrcs.getD i 0 := by
      by_cases h : incoming.ssrcs.length > i
      · simp [h]
      · rw [if_neg h, List.getD_eq_getElem?_getD,
          List.getElem?_eq_none (by omega)]
        rfl
    rw [hrid, hssrc]
  · intro h1 h2 h3
    obtain ⟨ssrcs, rids, repair, tid, sid⟩ := incoming
    simp only at h1 h2 h3
    subst h1; subst h2; subst h3
    rfl

def startEncodingsExample : TrackDetails :=
  { ssrcs := [10, 20], rids := [], repair_ssrc := 99, id := "t", stream_id := "s" }

/-- C7 witness: the concrete `[10,20]`/`[]`/`99` instance. -/
theorem start_encodings_spec_witness :
    RTCRtpReceiver.start_encodings startEncodingsExample
      = [{ rid := "", ssrc := 10, rtx := { ssrc := 99 } },
         { rid := "", ssrc := 20, rtx := { ssrc := 99 } }] :=
  (start_encodings_spec startEncodingsExample).2.2 rfl rfl rfl

/-- C10: past the readiness gate, `read` fails with the track-existence error
on an empty collection, depends only on the first track when one exists (so
with two or more tracks it reads from the first track's RTCP interceptor
rather than failing), fails with the interceptor-not-bound error when the
first track's RTCP interceptor is unbound, and propagates the first track's
interceptor read outcome as-is otherwise. -/
theorem read_uses_first_track (internal : RTPReceiverInternal) :
    (internal.tracks = [] → ∀ rc : Bool,
        internal.read .received rc = .error .ErrExistingTrack)
    ∧ (∀ t rest, internal.tracks = t :: rest → ∀ rc : Bool,
        internal.read .received rc
          = RTPReceiverInternal.read { tracks := [t] } .received rc)
    ∧ (∀ t rest, internal.tracks = t :: rest →
        t.stream.rtcp_interceptor = none → ∀ rc : Bool,
        internal.read .received rc = .error .ErrInterceptorNotBind)
    ∧ (∀ t rest rtcp_interceptor, internal.tracks = t :: rest →
        t.stream.rtcp_interceptor = some rtcp_interceptor →
        internal.read .received false = rtcp_interceptor.read) := by
  refine ⟨?_, ?_, ?_, ?_⟩
  · intro h rc
    simp [RTPReceiverInternal.read, h]
  · intro t rest h rc
    simp [RTPReceiverInternal.read, h]
  · intro t rest h hic rc
    simp [RTPReceiverInternal.read, h, hic]
  · intro t rest rtcp_interceptor h hic
    simp only [RTPReceiverInternal.read, h, List.head?_cons, hic, if_neg Bool.false_ne_true]
    cases hr : rtcp_interceptor.read with
    | ok v => simp
    | error e => simp

def readExampleInterceptor : RTCPInterceptor :=
  { read := .ok (5, { entries := [] }) }

def readExampleTrack : TrackStreams :=
  { track := { receive_mtu := 1500, kind := .Video, ssrc := 7, rid := "a" }
    stream := { TrackStream.empty with rtcp_interceptor := some readExampleInterceptor }
    repair_stream := TrackStream.empty }

def readExampleTrack2 : TrackStreams :=
  { track := { receive_mtu := 1500, kind := .Video, ssrc := 8, rid := "b" }
    stream := TrackStream.empty
    repair_stream := TrackStream.empty }

/-- C10 witness: with two registered tracks, `read` yields the first track's
interceptor outcome. -/
theorem read_uses_first_track_witness :
    RTPReceiverInternal.read { tracks := [readExampleTrack, readExampleTrack2] }
        .received false = .ok (5, { entries := [] }) :=
  (read_uses_first_track { tracks := [readExampleTrack, readExampleTrack2] }).2.2.2
    readExampleTrack [readExampleTrack2] readExampleInterceptor rfl rfl

/-- C8: for a receiver whose track collection is exactly one track with RID
`"r1"`, `read_simulcast` with RID `"nope"` fails
`ErrRTPReceiverForRIDTrackStreamNotFound`, while `read_simulcast` with RID
`"r1"` succeeds once that track's RTCP interceptor is bound and yields data. -/
theorem read_simulcast_rid_filter (t : TrackStreams) (h : t.track.rid = "r1") :
    (∀ rc : Bool,
        RTPReceiverInternal.read_simulcast { tracks := [t] } "nope" .received rc
          = .error .ErrRTPReceiverForRIDTrackStreamNotFound)
    ∧ (∀ rtcp_interceptor v, t.stream.rtcp_interceptor = some rtcp_interceptor →
        rtcp_interceptor.read = .ok v →
        RTPReceiverInternal.read_simulcast { tracks := [t] } "r1" .received false
          = .ok v) := by
  constructor
  · intro rc
    simp [RTPReceiverInternal.read_simulcast, read_simulcast_scan, h]
  · intro rtcp_interceptor v hic hread
    simp [RTPReceiverInternal.read_simulcast, read_simulcast_scan, h, hic, hread]

def simulcastExampleTrack : TrackStreams :=
  { track := { receive_mtu := 1500, kind := .Video, ssrc := 7, rid := "r1" }
    stream := { TrackStream.empty with rtcp_interceptor := some readExampleInterceptor }
    repair_stream := TrackStream.empty }

/-- C8 witness: the concrete one-track receiver with RID `"r1"`. -/
theorem read_simulcast_rid_filter_witness :
    RTPReceiverInternal.read_simulcast { tracks := [simulcastExampleTrack] }
        "nope" .received false
      = .error .ErrRTPReceiverForRIDTrackStreamNotFound
    ∧ RTPReceiverInternal.read_simulcast { tracks := [simulcastExampleTrack] }
        "r1" .received false = .ok (5, { entries := [] }) :=
  ⟨(read_simulcast_rid_filter simulcastExampleTrack rfl).1 false,
   (read_simulcast_rid_filter simulcastExampleTrack rfl).2
     readExampleInterceptor (5, { entries := [] }) rfl rfl⟩

theorem receive_for_rtx_attach_skip (l : Nat) (ssrc : SSRC) (rsid : String)
    (repair_stream : TrackStream) (pre : List TrackStreams) (t : TrackStreams)
    (post : List TrackStreams)
    (hl : ¬(ssrc ≠ 0 ∧ l = 1)) (hpre : ∀ u ∈ pre, u.track.rid ≠ rsid)
    (ht : t.track.rid = rsid) :
    receive_for_rtx_attach l ssrc rsid repair_stream (pre ++ t :: post)
      = some (pre ++ { t with repair_stream := repair_stream } :: post) := by
  induction pre with
  | nil =>
    simp [receive_for_rtx_attach, hl, ht]
  | cons u pre ih =>
    have hu : ¬(u.track.rid = rsid) := hpre u (by simp)
    have hrest := ih (fun v hv => hpre v (by simp [hv]))
    simp [receive_for_rtx_attach, hl, hu, hrest]

theorem receive_for_rtx_attach_none (l : Nat) (ssrc : SSRC) (rsid : String)
    (repair_stream : TrackStream) (ts : List TrackStreams)
    (hl : ¬(ssrc ≠ 0 ∧ l = 1)) (hts : ∀ u ∈ ts, u.track.rid ≠ rsid) :
    receive_for_rtx_attach l ssrc rsid repair_stream ts = none := by
  induction ts with
  | nil => rfl
  | cons u ts ih =>
    have hu : ¬(u.track.rid = rsid) := hts u (by simp)
    have hrest := ih (fun v hv => hts v (by simp [hv]))
    simp [receive_for_rtx_attach, hl, hu, hrest]

/-- C6: `receive_for_rtx` attaches the repair pipeline to the sole track when
the collection has exactly one track and the RTX SSRC is nonzero; otherwise it
attaches to the first track whose RID equals the given RID; and when no track
matches it fails `ErrRTPReceiverForRIDTrackStreamNotFound` leaving every
track's repair pipeline unreplaced. -/
theorem receive_for_rtx_match_rule (r : RTCRtpReceiver) (ssrc : SSRC)
    (rsid : String) (repair_stream : TrackStream) :
    (∀ t, r.internal.tracks = [t] → ssrc ≠ 0 →
      r.receive_for_rtx ssrc rsid repair_stream
        = ({ r with internal :=
              { tracks := [{ t with repair_stream := repair_stream }] } },
           .ok ()))
    ∧ (¬(ssrc ≠ 0 ∧ r.internal.tracks.length = 1) →
      ∀ pre t post, r.internal.tracks = pre ++ t :: post →
        (∀ u ∈ pre, u.track.rid ≠ rsid) → t.track.rid = rsid →
        r.receive_for_rtx ssrc rsid repair_stream
          = ({ r with internal :=
                { tracks := pre ++ { t with repair_stream := repair_stream } :: post } },
             .ok ()))
    ∧ ((∀ u ∈ r.internal.tracks, u.track.rid ≠ rsid) →
        ¬(ssrc ≠ 0 ∧ r.internal.tracks.length = 1) →
        r.receive_for_rtx ssrc rsid repair_stream
          = (r, .error .ErrRTPReceiverForRIDTrackStreamNotFound)) := by
  refine ⟨?_, ?_, ?_⟩
  · intro t htr hssrc
    simp [RTCRtpReceiver.receive_for_rtx, htr, receive_for_rtx_attach, hssrc]
  · intro hl pre t post htr hpre ht
    have hatt := receive_for_rtx_attach_skip r.internal.tracks.length ssrc rsid
      repair_stream pre t post hl hpre ht
    rw [htr] at hatt
    simp only [List.length_append, List.length_cons] at hatt
    simp [RTCRtpReceiver.receive_for_rtx, htr, hatt]
  · intro hts hl
    have := receive_for_rtx_attach_none r.internal.tracks.length ssrc rsid
      repair_stream r.internal.tracks hl hts
    simp [RTCRtpReceiver.receive_for_rtx, this]

def rtxExampleReceiver : RTCRtpReceiver :=
  { receive_mtu := 1500
    kind := .Video
    received_tx := none
    internal := { tracks := [readExampleTrack] } }

def rtxExampleRepair : TrackStream :=
  { TrackStream.empty with stream_info := some { id := "", ssrc := 42 } }

/-- C6 witness: a single-track collection with nonzero RTX SSRC gets the
repair pipeline attached to the sole track unconditionally. -/
theorem receive_for_rtx_match_rule_witness :
    rtxExampleReceiver.receive_for_rtx 42 "unmatched-rid" rtxExampleRepair
      = ({ rtxExampleReceiver with internal :=
            { tracks := [{ readExampleTrack with repair_stream := rtxExampleRepair }] } },
         .ok ()) :=
  (receive_for_rtx_match_rule rtxExampleReceiver 42 "unmatched-rid"
    rtxExampleRepair).1 readExampleTrack rfl (by decide)

theorem receive_for_rtx_received_tx (r : RTCRtpReceiver) (ssrc : SSRC)
    (rsid : String) (repair_stream : TrackStream) :
    (r.receive_for_rtx ssrc rsid repair_stream).1.received_tx = r.received_tx := by
  cases h : receive_for_rtx_attach r.internal.tracks.length ssrc rsid
      repair_stream r.internal.tracks with
  | none => simp [RTCRtpReceiver.receive_for_rtx, h]
  | some tracks2 => simp [RTCRtpReceiver.receive_for_rtx, h]

theorem receive_encoding_received_tx (r : RTCRtpReceiver)
    (env : SSRC → Except Error BindResult) (encoding : RTCRtpDecodingParameters) :
    (receive_encoding r env encoding).1.received_tx = r.received_tx := by
  unfold receive_encoding
  split
  · cases he : env encoding.ssrc with
    | error e => simp [he]
    | ok b =>
      simp only [he]
      split
      · cases he2 : env encoding.rtx.ssrc with
        | error e2 => simp [he2]
        | ok b2 =>
          simp only [he2]
          rw [receive_for_rtx_received_tx]
      · rfl
  · split
    · cases he2 : env encoding.rtx.ssrc with
      | error e2 => simp [he2]
      | ok b2 =>
        simp only [he2]
        rw [receive_for_rtx_received_tx]
    · rfl

theorem receive_encodings_received_tx (r : RTCRtpReceiver)
    (env : SSRC → Except Error BindResult)
    (encodings : List RTCRtpDecodingParameters) :
    (receive_encodings r env encodings).1.received_tx = r.received_tx := by
  induction encodings generalizing r with
  | nil => rfl
  | cons encoding rest ih =>
    unfold receive_encodings
    cases h : receive_encoding r env encoding with
    | mk r2 res =>
      have h2 : r2.received_tx = r.received_tx := by
        have hp := receive_encoding_received_tx r env encoding
        rw [h] at hp
        exact hp
      cases res with
      | ok u => exact (ih r2).trans h2
      | error e => exact h2

theorem receive_already_called (r : RTCRtpReceiver)
    (parameters : RTCRtpReceiveParameters)
    (env : SSRC → Except Error BindResult) (h : r.received_tx = none) :
    r.receive parameters env = (r, .error .ErrRTPReceiverReceiveAlreadyCalled) := by
  unfold RTCRtpReceiver.receive
  rw [h]

/-- C2: the first `receive` call consumes the one-shot gate before any other
work (the gate is consumed whatever the binding outcomes), and a second call
fails `ErrRTPReceiverReceiveAlreadyCalled` returning the receiver — its track
collection included — unmodified. -/
theorem receive_second_call_fails (r : RTCRtpReceiver)
    (p₁ p₂ : RTCRtpReceiveParameters)
    (env₁ env₂ : SSRC → Except Error BindResult)
    (h : r.received_tx = some ()) :
    (r.receive p₁ env₁).1.received_tx = none
    ∧ RTCRtpReceiver.receive (r.receive p₁ env₁).1 p₂ env₂
        = ((r.receive p₁ env₁).1, .error .ErrRTPReceiverReceiveAlreadyCalled) := by
  have h1 : (r.receive p₁ env₁).1.received_tx = none := by
    unfold RTCRtpReceiver.receive
    rw [h]
    exact receive_encodings_received_tx { r with received_tx := none } env₁
      p₁.encodings
  exact ⟨h1, receive_already_called _ p₂ env₂ h1⟩

def receiveExampleEnv : SSRC → Except Error BindResult :=
  fun _ => .ok { rtp_read_stream := none, rtp_interceptor := none,
                 rtcp_read_stream := none, rtcp_interceptor := none }

def receiveExampleParams : RTCRtpReceiveParameters :=
  { encodings := [{ rid := "", ssrc := 5, rtx := { ssrc := 0 } }] }

/-- C2 witness: a fresh receiver accepts one `receive` call and rejects the
second one with the sequence error, tracks unchanged. -/
theorem receive_second_call_fails_witness :
    ((RTCRtpReceiver.new 1500 .Video).receive receiveExampleParams
        receiveExampleEnv).1.received_tx = none
    ∧ RTCRtpReceiver.receive
        ((RTCRtpReceiver.new 1500 .Video).receive receiveExampleParams
          receiveExampleEnv).1 receiveExampleParams receiveExampleEnv
        = (((RTCRtpReceiver.new 1500 .Video).receive receiveExampleParams
            receiveExampleEnv).1,
           .error .ErrRTPReceiverReceiveAlreadyCalled) :=
  receive_second_call_fails (RTCRtpReceiver.new 1500 .Video)
    receiveExampleParams receiveExampleParams receiveExampleEnv
    receiveExampleEnv rfl

theorem stop_tracks_eq (ts : List TrackStreams) :
    stop_tracks ts
      = (ts.flatMap (fun t => (stop_track t).1),
         ts.flatMap (fun t => (stop_track t).2)) := by
  induction ts with
  | nil => rfl
  | cons t rest ih => simp [stop_tracks, ih]

theorem flatten_errs_ok_iff (errs : List Error) :
    flatten_errs errs = .ok () ↔ errs = [] := by
  cases errs with
  | nil => simp [flatten_errs]
  | cons e rest =>
    constructor
    · intro h
      exact Except.noConfusion h
    · intro h
      exact List.noConfusion h

/-- C3: `stop` never mutates the receiver state, succeeds with no close or
unbind effect when `receive` was never invoked, is idempotent across repeated
calls, and — once `receive` had been invoked — attempts a close of every bound
pipeline (primary and repair, RTP and RTCP) of every track, unbinds every
bound stream descriptor, and aggregates all individual close errors into one
combined failure instead of stopping at the first error. -/
theorem stop_spec (r : RTCRtpReceiver) :
    ((r.stop).1 = r)
    ∧ (r.received_tx = some () → r.stop = (r, .ok (), []))
    ∧ (RTCRtpReceiver.stop ((r.stop).1) = r.stop)
    ∧ (r.received_tx = none →
        (r.stop).2.1
            = flatten_errs (r.internal.tracks.flatMap (fun t => (stop_track t).1))
        ∧ (r.stop).2.2 = r.internal.tracks.flatMap (fun t => (stop_track t).2)
        ∧ ((r.stop).2.1 = .ok ()
            ↔ r.internal.tracks.flatMap (fun t => (stop_track t).1) = [])
        ∧ ∀ t ∈ r.internal.tracks,
            (∀ s, t.stream.rtcp_read_stream = some s →
              StopAction.close_rtcp s ∈ (r.stop).2.2)
            ∧ (∀ s, t.stream.rtp_read_stream = some s →
              StopAction.close_rtp s ∈ (r.stop).2.2)
            ∧ (∀ s, t.repair_stream.rtcp_read_stream = some s →
              StopAction.close_repair_rtcp s ∈ (r.stop).2.2)
            ∧ (∀ s, t.repair_stream.rtp_read_stream = some s →
              StopAction.close_repair_rtp s ∈ (r.stop).2.2)
            ∧ (∀ info, t.stream.stream_info = some info →
              StopAction.unbind info ∈ (r.stop).2.2)
            ∧ (∀ info, t.repair_stream.stream_info = some info →
              StopAction.unbind info ∈ (r.stop).2.2)) := by
  have h1 : (r.stop).1 = r := by
    unfold RTCRtpReceiver.stop
    split
    dsimp only
    split <;> rfl
  refine ⟨h1, ?_, by rw [h1], ?_⟩
  · intro h
    have hn : r.received_tx.isNone = false := by rw [h]; rfl
    simp [RTCRtpReceiver.stop, hn, flatten_errs]
  · intro h
    have hn : r.received_tx.isNone = true := by rw [h]; rfl
    have herr : (r.stop).2.1
        = flatten_errs (r.internal.tracks.flatMap (fun t => (stop_track t).1)) := by
      simp [RTCRtpReceiver.stop, hn, stop_tracks_eq]
    have hact : (r.stop).2.2
        = r.internal.tracks.flatMap (fun t => (stop_track t).2) := by
      simp [RTCRtpReceiver.stop, hn, stop_tracks_eq]
    refine ⟨herr, hact, by rw [herr]; exact flatten_errs_ok_iff _, ?_⟩
    intro t ht
    refine ⟨?_, ?_, ?_, ?_, ?_, ?_⟩ <;> intro s hs <;> rw [hact] <;>
      exact List.mem_flatMap.mpr
        ⟨t, ht, by simp [stop_track, hs, close_action_of, unbind_action_of]⟩

/-- C3 witness: `stop` before `receive` on a fresh receiver succeeds with no
effects and leaves the receiver unchanged. -/
theorem stop_spec_witness :
    (RTCRtpReceiver.new 1500 .Video).stop
      = (RTCRtpReceiver.new 1500 .Video, .ok (), []) :=
  (stop_spec (RTCRtpReceiver.new 1500 .Video)).2.1 rfl

theorem prepare_transport_cases (t : RTCDtlsTransport) (rp : DTLSParameters) :
    (t.ice_transport_state = .New ∧
      t.prepare_transport rp = (t, .error .ErrICEConnectionNotStarted))
    ∨ (t.ice_transport_state ≠ .New ∧ t.state ≠ .New ∧
      t.prepare_transport rp = (t, .error .ErrInvalidDTLSStart))
    ∨ (t.ice_transport_state ≠ .New ∧ t.state = .New ∧
      t.prepare_transport rp
        = ({ t with remote_parameters := rp }, .error .ErrNonCertificate))
    ∨ (∃ cfg : DtlsConfig, t.ice_transport_state ≠ .New ∧ t.state = .New ∧
      t.prepare_transport rp
        = ({ t with remote_parameters := rp, state := .Connecting },
           .ok (DTLSRole.Client, cfg))) := by
  by_cases hi : t.ice_transport_state = .New
  · exact Or.inl ⟨hi, by
      simp [RTCDtlsTransport.prepare_transport, RTCDtlsTransport.ensure_ice_conn, hi]⟩
  · by_cases hs : t.state = .New
    · cases hc : t.certificates.head? with
      | none =>
        refine Or.inr (Or.inr (Or.inl ⟨hi, hs, ?_⟩))
        simp [RTCDtlsTransport.prepare_transport, RTCDtlsTransport.ensure_ice_conn,
          hi, hs, hc]
      | some cert =>
        refine Or.inr (Or.inr (Or.inr
          ⟨{ certificates := [cert.certificate]
             srtp_protection_profiles := []
             client_auth := .RequireAnyClientCert
             insecure_skip_verify := true }, hi, hs, ?_⟩))
        simp [RTCDtlsTransport.prepare_transport, RTCDtlsTransport.ensure_ice_conn,
          RTCDtlsTransport.state_change, hi, hs, hc]
    · refine Or.inr (Or.inl ⟨hi, hs, ?_⟩)
      simp [RTCDtlsTransport.prepare_transport, RTCDtlsTransport.ensure_ice_conn,
        hi, hs]

theorem start_of_prepare_error (u : RTCDtlsTransport) (rp : DTLSParameters)
    (env : StartEnv) (ep : Nat) (hep : env.new_endpoint = some ep) (e : Error)
    (hpre : u.prepare_transport rp = (u, .error e)) :
    u.start rp env = (u, .error e) := by
  unfold RTCDtlsTransport.start
  rw [hep, hpre]

theorem start_ok_facts (t : RTCDtlsTransport) (rp : DTLSParameters)
    (env : StartEnv) (hok : (t.start rp env).2 = .ok ()) :
    (t.start rp env).1.state = .Connected
    ∧ (t.start rp env).1.ice_transport_state = t.ice_transport_state
    ∧ t.ice_transport_state ≠ .New := by
  unfold RTCDtlsTransport.start at hok ⊢
  cases hep : env.new_endpoint with
  | none =>
    rw [hep] at hok
    exact Except.noConfusion hok
  | some ep =>
    rw [hep] at hok
    rcases prepare_transport_cases t rp with ⟨hi, hpre⟩ | ⟨hi, hs, hpre⟩
      | ⟨hi, hs, hpre⟩ | ⟨cfg, hi, hs, hpre⟩
    · rw [hpre] at hok; exact Except.noConfusion hok
    · rw [hpre] at hok; exact Except.noConfusion hok
    · rw [hpre] at hok; exact Except.noConfusion hok
    · simp only [hpre] at hok ⊢
      cases hcc : env.dtls_conn_new ep cfg with
      | error err =>
        rw [hcc] at hok
        exact Except.noConfusion hok
      | ok dtls_conn => exact ⟨rfl, rfl, hi⟩

theorem start_preserves_ne_new (t : RTCDtlsTransport) (rp : DTLSParameters)
    (env : StartEnv) (h : t.state ≠ .New) :
    (t.start rp env).1.state ≠ .New
    ∧ (t.start rp env).1.conn = t.conn
    ∧ (t.start rp env).1.ice_transport_state = t.ice_transport_state := by
  unfold RTCDtlsTransport.start
  cases hep : env.new_endpoint with
  | none =>
    refine ⟨?_, rfl, rfl⟩
    intro hcon
    exact RTCDtlsTransportState.noConfusion hcon
  | some ep =>
    rcases prepare_transport_cases t rp with ⟨hi, hpre⟩ | ⟨hi, hs, hpre⟩
      | ⟨hi, hs, hpre⟩ | ⟨cfg, hi, hs, hpre⟩
    · rw [hpre]; exact ⟨h, rfl, rfl⟩
    · rw [hpre]; exact ⟨h, rfl, rfl⟩
    · exact absurd hs h
    · exact absurd hs h

theorem start_conn_of_none (t : RTCDtlsTransport) (rp : DTLSParameters)
    (env : StartEnv) (h : t.conn = none) :
    (t.start rp env).1.conn = none
    ∨ ((t.start rp env).2 = .ok () ∧ (t.start rp env).1.state = .Connected
        ∧ ∃ c, (t.start rp env).1.conn = some c) := by
  unfold RTCDtlsTransport.start
  cases hep : env.new_endpoint with
  | none => exact Or.inl h
  | some ep =>
    rcases prepare_transport_cases t rp with ⟨hi, hpre⟩ | ⟨hi, hs, hpre⟩
      | ⟨hi, hs, hpre⟩ | ⟨cfg, hi, hs, hpre⟩
    · rw [hpre]; exact Or.inl h
    · rw [hpre]; exact Or.inl h
    · rw [hpre]; exact Or.inl h
    · simp only [hpre]
      cases hcc : env.dtls_conn_new ep cfg with
      | error err => exact Or.inl h
      | ok dtls_conn => exact Or.inr ⟨rfl, rfl, dtls_conn, rfl⟩

theorem start_conn_change (t : RTCDtlsTransport) (rp : DTLSParameters)
    (env : StartEnv) (h : (t.start rp env).1.conn ≠ t.conn) :
    (t.start rp env).2 = .ok () ∧ (t.start rp env).1.state = .Connected := by
  unfold RTCDtlsTransport.start at h ⊢
  cases hep : env.new_endpoint with
  | none =>
    rw [hep] at h
    exact absurd rfl h
  | some ep =>
    rw [hep] at h
    rcases prepare_transport_cases t rp with ⟨hi, hpre⟩ | ⟨hi, hs, hpre⟩
      | ⟨hi, hs, hpre⟩ | ⟨cfg, hi, hs, hpre⟩
    · rw [hpre] at h; exact absurd rfl h
    · rw [hpre] at h; exact absurd rfl h
    · rw [hpre] at h; exact absurd rfl h
    · simp only [hpre] at h ⊢
      cases hcc : env.dtls_conn_new ep cfg with
      | error err =>
        rw [hcc] at h
        exact absurd rfl h
      | ok dtls_conn => exact ⟨rfl, rfl⟩

theorem applyOp_state_ne_new (t : RTCDtlsTransport) (op : TransportOp)
    (h : t.state ≠ .New) : (applyOp t op).1.state ≠ .New := by
  cases op with
  | start rp env => exact (start_preserves_ne_new t rp env h).1
  | on_state_change f => exact h

theorem runOps_state_ne_new (t : RTCDtlsTransport) (ops : List TransportOp)
    (h : t.state ≠ .New) : (runOps t ops).state ≠ .New := by
  induction ops generalizing t with
  | nil => exact h
  | cons op ops ih =>
    simp only [runOps]
    exact ih _ (applyOp_state_ne_new t op h)

theorem applyOp_conn_of_none (t : RTCDtlsTransport) (op : TransportOp)
    (h : t.conn = none) :
    (applyOp t op).1.conn = none
    ∨ ((applyOp t op).2 = .ok () ∧ (applyOp t op).1.state = .Connected
        ∧ ∃ c, (applyOp t op).1.conn = some c) := by
  cases op with
  | start rp env => exact start_conn_of_none t rp env h
  | on_state_change f => exact Or.inl h

theorem applyOp_conn_some_ne_new (t : RTCDtlsTransport) (op : TransportOp)
    (c : DTLSConn) (h1 : t.conn = some c) (h2 : t.state ≠ .New) :
    (applyOp t op).1.conn = some c ∧ (applyOp t op).1.state ≠ .New := by
  cases op with
  | on_state_change f => exact ⟨h1, h2⟩
  | start rp env =>
    obtain ⟨hne, hconn, _⟩ := start_preserves_ne_new t rp env h2
    exact ⟨hconn.trans h1, hne⟩

theorem self_mem_run_trace (t : RTCDtlsTransport) (ops : List TransportOp) :
    t ∈ run_trace t ops := by
  cases ops with
  | nil => simp [run_trace]
  | cons op ops => simp [run_trace]

theorem trace_conn_none (t : RTCDtlsTransport) (ops : List TransportOp)
    (h : t.conn = none)
    (hs : ∀ u ∈ run_trace t ops, u.state ≠ .Connected) :
    ∀ u ∈ run_trace t ops, u.conn = none := by
  induction ops generalizing t with
  | nil =>
    intro u hu
    simp only [run_trace, List.mem_singleton] at hu
    rw [hu]
    exact h
  | cons op ops ih =>
    intro u hu
    simp only [run_trace, List.mem_cons] at hu
    rcases hu with rfl | hu
    · exact h
    · have hnext : (applyOp t op).1.conn = none := by
        rcases applyOp_conn_of_none t op h with hn | ⟨_, hc, _⟩
        · exact hn
        · exact absurd hc (hs (applyOp t op).1 (by
            simp only [run_trace, List.mem_cons]
            exact Or.inr (self_mem_run_trace _ _)))
      exact ih (applyOp t op).1 hnext
        (fun v hv => hs v (by
          simp only [run_trace, List.mem_cons]
          exact Or.inr hv)) u hu

theorem runOps_conn_some (t : RTCDtlsTransport) (ops : List TransportOp)
    (c : DTLSConn) (h1 : t.conn = some c) (h2 : t.state ≠ .New) :
    (runOps t ops).conn = some c := by
  induction ops generalizing t with
  | nil => exact h1
  | cons op ops ih =>
    obtain ⟨ha, hb⟩ := applyOp_conn_some_ne_new t op c h1 h2
    simp only [runOps]
    exact ih _ ha hb

theorem runOps_strong_inv (t : RTCDtlsTransport) (ops : List TransportOp)
    (h : t.conn = none ∨ t.state ≠ .New) :
    (runOps t ops).conn = none ∨ (runOps t ops).state ≠ .New := by
  induction ops generalizing t with
  | nil => exact h
  | cons op ops ih =>
    simp only [runOps]
    apply ih
    rcases h with h | h
    · rcases applyOp_conn_of_none t op h with hn | ⟨_, hc, _⟩
      · exact Or.inl hn
      · refine Or.inr ?_
        rw [hc]
        intro hcon
        exact RTCDtlsTransportState.noConfusion hcon
    · exact Or.inr (applyOp_state_ne_new t op h)

/-- C1: after a first successful `start`, a second `start` call (with the ICE
layer still supplying an endpoint) fails `ErrInvalidDTLSStart` leaving the
transport unchanged, and no later sequence of operations ever brings the
transport state back to `New`. -/
theorem start_second_call_invalid (t : RTCDtlsTransport) (rp : DTLSParameters)
    (env : StartEnv) (hok : (t.start rp env).2 = .ok ()) :
    (∀ rp₂ env₂ ep, env₂.new_endpoint = some ep →
      RTCDtlsTransport.start (t.start rp env).1 rp₂ env₂
        = ((t.start rp env).1, .error .ErrInvalidDTLSStart))
    ∧ ∀ ops : List TransportOp, (runOps (t.start rp env).1 ops).state ≠ .New := by
  obtain ⟨hstate, hice, hicene⟩ := start_ok_facts t rp env hok
  have hne : (t.start rp env).1.state ≠ .New := by
    rw [hstate]
    intro hcon
    exact RTCDtlsTransportState.noConfusion hcon
  constructor
  · intro rp₂ env₂ ep hep
    have hpre : (t.start rp env).1.prepare_transport rp₂
        = ((t.start rp env).1, .error .ErrInvalidDTLSStart) := by
      rcases prepare_transport_cases (t.start rp env).1 rp₂ with ⟨hi, _⟩
        | ⟨_, _, hpre⟩ | ⟨_, hs, _⟩ | ⟨_, _, hs, _⟩
      · rw [hice] at hi; exact absurd hi hicene
      · exact hpre
      · exact absurd hs hne
      · exact absurd hs hne
    exact start_of_prepare_error _ rp₂ env₂ ep hep _ hpre
  · intro ops
    exact runOps_state_ne_new _ ops hne

def c1Cert : RTCCertificate := { certificate := 1, get_fingerprints := .ok [] }

def c1Transport : RTCDtlsTransport := RTCDtlsTransport.new .Checking [c1Cert]

def c1Env : StartEnv :=
  { new_endpoint := some 0, dtls_conn_new := fun _ _ => .ok { id := 7 } }

def c1Params : DTLSParameters := { role := .Auto, fingerprints := [] }

/-- C1 witness: the concrete double-start run. -/
theorem start_second_call_invalid_witness :
    RTCDtlsTransport.start (c1Transport.start c1Params c1Env).1 c1Params c1Env
      = ((c1Transport.start c1Params c1Env).1, .error .ErrInvalidDTLSStart)
    ∧ (runOps (c1Transport.start c1Params c1Env).1 []).state ≠ .New :=
  ⟨(start_second_call_invalid c1Transport c1Params c1Env rfl).1 c1Params c1Env 0 rfl,
   (start_second_call_invalid c1Transport c1Params c1Env rfl).2 []⟩

/-- C9: starting from a freshly constructed negotiator, the secure-channel
slot is `None` at every point of every run in which the state has not reached
`Connected`; once set it is never overwritten by any further operations; and
any single operation that changes the slot is a `start` call that succeeded
and transitioned the state to `Connected` (so the slot is set exactly once,
on handshake success, never on failure). -/
theorem conn_none_until_connected_set_once (iceState : RTCIceTransportState)
    (certs : List RTCCertificate) :
    (∀ ops, (∀ u ∈ run_trace (RTCDtlsTransport.new iceState certs) ops,
        u.state ≠ .Connected) →
      ∀ u ∈ run_trace (RTCDtlsTransport.new iceState certs) ops, u.conn = none)
    ∧ (∀ ops c ops2,
        (runOps (RTCDtlsTransport.new iceState certs) ops).conn = some c →
        (runOps (runOps (RTCDtlsTransport.new iceState certs) ops) ops2).conn
          = some c)
    ∧ (∀ u : RTCDtlsTransport, ∀ op : TransportOp,
        (applyOp u op).1.conn ≠ u.conn →
        (applyOp u op).2 = .ok () ∧ (applyOp u op).1.state = .Connected) := by
  refine ⟨?_, ?_, ?_⟩
  · intro ops hs
    exact trace_conn_none _ ops rfl hs
  · intro ops c ops2 hc
    rcases runOps_strong_inv (RTCDtlsTransport.new iceState certs) ops
        (Or.inl rfl) with hn | hne
    · rw [hc] at hn
      exact Option.noConfusion hn
    · exact runOps_conn_some _ ops2 c hc hne
  · intro u op hch
    cases op with
    | on_state_change f => exact absurd rfl hch
    | start rp env => exact start_conn_change u rp env hch

/-- C9 witness: a fresh negotiator that never reaches `Connected` has an empty
secure-channel slot. -/
theorem conn_none_until_connected_set_once_witness :
    (RTCDtlsTransport.new .Checking []).conn = none :=
  (conn_none_until_connected_set_once .Checking []).1 []
    (by
      intro u hu
      simp only [run_trace, List.mem_singleton] at hu
      rw [hu]
      intro hcon
      exact RTCDtlsTransportState.noConfusion hcon)
    (RTCDtlsTransport.new .Checking []) (self_mem_run_trace _ _)

end Webrtc
